import Mathlib

/-!
Shallow embedding of the Philips Hue Bridge CLI client (src/main.rs).

The transport layer (reqwest HTTPS calls) is pure I/O; each network-facing
operation is embedded as the pure function of the JSON value the transport
returned on success (an HTTP 2xx response with a JSON body).  All parsing,
envelope interpretation, light resolution and request-body construction are
embedded directly from the source.

A Rust panic (`unwrap()` on `None`/`Err`, `unimplemented!()`) is modelled by
`Option.none` at the outermost layer: a function that can panic returns
`Option α`, where `none` means the Rust code aborts instead of returning.
-/

namespace HueLab

/-- An untyped JSON tree, embedding `serde_json::Value`.  Numbers are
modelled as integers: every number the program manipulates (error `type`
codes, brightness values produced from a clamped `u8`) is integral. -/
inductive Json where
  | null : Json
  | boolean : Bool → Json
  | num : Int → Json
  | str : String → Json
  | arr : List Json → Json
  | obj : List (String × Json) → Json

/-- First-match lookup in an object's field list (embeds `serde_json::Map`
lookup; parsed maps have unique keys, so first-match is faithful). -/
def lookupField : List (String × Json) → String → Option Json
  | [], _ => none
  | (k, v) :: rest, key => if k = key then some v else lookupField rest key

/-- `serde_json::Value::get` with a string index: member lookup on objects,
`None` on every other shape. -/
def Json.get : Json → String → Option Json
  | .obj fields, key => lookupField fields key
  | _, _ => none

/-- `serde_json::Value::is_array`. -/
def Json.isArray : Json → Bool
  | .arr _ => true
  | _ => false

/-- `serde_json::Value::as_array`. -/
def Json.asArray : Json → Option (List Json)
  | .arr xs => some xs
  | _ => none

/-- `serde_json::Value::as_object`. -/
def Json.asObject : Json → Option (List (String × Json))
  | .obj fields => some fields
  | _ => none

/-- serde deserialization of an `i64` field from a JSON value. -/
def decodeI64 : Json → Option Int
  | .num n => some n
  | _ => none

/-- serde deserialization of a `String` field from a JSON value. -/
def decodeString : Json → Option String
  | .str s => some s
  | _ => none

/-- Wire format of a Hue error message (`HueApiErrorMessage` in the source):
`{"type": integer, "address": string, "description": string}`. -/
structure HueApiErrorMessage where
  type_value : Int
  address : String
  description : String
deriving DecidableEq, Repr

/-- serde decode of `HueApiErrorMessage` from a JSON value.  A derived serde
struct decodes from a JSON object (unknown keys ignored, all three fields
required with the right types) or, positionally, from a JSON array of
exactly the struct's arity — `serde_json` supports both. -/
def decodeErrorMessage : Json → Option HueApiErrorMessage
  | .obj fields => do
      let t ← lookupField fields "type" >>= decodeI64
      let a ← lookupField fields "address" >>= decodeString
      let d ← lookupField fields "description" >>= decodeString
      pure ⟨t, a, d⟩
  | .arr [t, a, d] => do
      let tv ← decodeI64 t
      let av ← decodeString a
      let dv ← decodeString d
      pure ⟨tv, av, dv⟩
  | _ => none

/-- Wire format of a successful create-key response payload
(`HueApiCreateKeySuccessDetails`): `{"username": string}`. -/
structure HueApiCreateKeySuccessDetails where
  user_name : String
deriving DecidableEq, Repr

/-- serde decode of `HueApiCreateKeySuccessDetails` (field rename:
`username`). -/
def decodeCreateKeySuccessDetails : Json → Option HueApiCreateKeySuccessDetails
  | .obj fields => do
      let u ← lookupField fields "username" >>= decodeString
      pure ⟨u⟩
  | .arr [u] => do
      let uv ← decodeString u
      pure ⟨uv⟩
  | _ => none

/-- Cause slot of a `HueError` (`Option<Box<dyn Error>>` in the source):
either a bridge-reported API error message, or a `serde_json` decode error
(whose dynamic message text is abstracted). -/
inductive HueErrorCause where
  | api : HueApiErrorMessage → HueErrorCause
  | decode : HueErrorCause
deriving DecidableEq, Repr

/-- `HueError(String, Option<Box<dyn Error>>)`: a message plus an optional
boxed cause. -/
structure HueError where
  message : String
  cause : Option HueErrorCause
deriving DecidableEq, Repr

/-- Effectful traversal of a list in the `Option` monad (`List.mapM`
specialised and unfolded): every element must produce a value, in order,
and the first `none` aborts the whole traversal.  This models both serde's
`Vec<T>` decoding (all elements must decode) and a panicking `collect`. -/
def traverseOption (f : α → Option β) : List α → Option (List β)
  | [] => some []
  | x :: xs =>
      match f x with
      | none => none
      | some y =>
          match traverseOption f xs with
          | none => none
          | some ys => some (y :: ys)

/-- One step of the `filter_map` in `parse_api_response_errors`.
`some (some e)` = the element yields error `e`; `some none` = the element
contributes nothing; `none` = the `unwrap()` on the serde decode panics. -/
def extractError (element : Json) : Option (Option HueApiErrorMessage) :=
  match element with
  | .obj fields =>
      match lookupField fields "error" with
      | some details => (decodeErrorMessage details).map some
      | none => some none
  | _ => some none

/-- `parse_api_response_errors`: on an array, extract one error per element
that is an object with an `error` key (panicking — `none` — if any such
element's error payload fails to decode); on any non-array value, return the
empty list. -/
def parse_api_response_errors (response : Json) : Option (List HueApiErrorMessage) :=
  match response with
  | .arr elements => (traverseOption extractError elements).map (List.filterMap id)
  | _ => some []

/-- Message text of the malformed-success-envelope failure in
`parse_create_key_response`. -/
def createKeyMalformedMessage : String :=
  "Could not create key. success element not found in response array."

/-- Message slot for the serde decode failure in `parse_create_key_response`
(the source uses the dynamic `serde_json` error text, abstracted here). -/
def createKeyDecodeErrorMessage : String :=
  "serde_json decode error (create-key success details)"

/-- `parse_create_key_response`: run `parse_api_response_errors`; a
non-empty error list fails with the first error as cause; with no errors,
an array response has its element 0 `unwrap`ped as an object (panicking on
an empty array or a non-object first element) and its `success` member
decoded, a missing `success` member being a distinct failure; with no
errors and a non-array response the source hits `unimplemented!()`
(a panic, modelled as `none`). -/
def parse_create_key_response (response : Json) :
    Option (Except HueError HueApiCreateKeySuccessDetails) := do
  let errors ← parse_api_response_errors response
  match errors, response with
  | e :: _, _ =>
      pure (.error ⟨"Could not create key.", some (.api e)⟩)
  | [], .arr elements => do
      let first ← elements.head?
      let fields ← first.asObject
      match lookupField fields "success" with
      | none => pure (.error ⟨createKeyMalformedMessage, none⟩)
      | some details =>
          match decodeCreateKeySuccessDetails details with
          | none => pure (.error ⟨createKeyDecodeErrorMessage, some .decode⟩)
          | some result => pure (.ok result)
  | [], _ => none

/-- App-name constant from the source. -/
def HUE_API_APP_NAME : String := "philips_hue_lab"

/-- User-name constant from the source. -/
def HUE_API_USER_NAME : String := "hue_lab_user"

/-- `BridgeKey`: the key material returned by `create_key`. -/
structure BridgeKey where
  user_name : String
  client_key : String
deriving DecidableEq, Repr

/-- `create_key`, given the JSON value the transport returned for the
`POST /api` call: parse the response and package the returned username as
the bridge key material. -/
def create_key (response : Json) : Option (Except HueError BridgeKey) := do
  let parsed ← parse_create_key_response response
  match parsed with
  | .error e => pure (.error e)
  | .ok details => pure (.ok ⟨HUE_API_USER_NAME, details.user_name⟩)

/-- `LightId(String)`: the service ID for a light device. -/
structure LightId where
  val : String
deriving DecidableEq, Repr

/-- `DeviceInfo`: standard Hue device information. -/
structure DeviceInfo where
  id : String
  name : String
  product_name : String
  light_id : Option LightId
deriving DecidableEq, Repr

/-- `HueDevice(DeviceInfo)`: a Hue device on the bridge. -/
structure HueDevice where
  info : DeviceInfo
deriving DecidableEq, Repr

/-- Wire format `HueApiDeviceService`: `{"rid": string, "rtype": string}`. -/
structure HueApiDeviceService where
  rid : String
  rtype : String
deriving DecidableEq, Repr

/-- Wire format `HueApiDeviceProductData`. -/
structure HueApiDeviceProductData where
  model_id : String
  product_name : String
deriving DecidableEq, Repr

/-- Wire format `HueApiDeviceMetadata`. -/
structure HueApiDeviceMetadata where
  name : String
deriving DecidableEq, Repr

/-- Wire format `HueApiDeviceData`: one entry of the v2 `data` sequence. -/
structure HueApiDeviceData where
  id : String
  product_data : HueApiDeviceProductData
  metadata : HueApiDeviceMetadata
  services : List HueApiDeviceService
deriving DecidableEq, Repr

/-- Wire format `HueApiDeviceResponse`: the v2 envelope
`{"errors": [...], "data": [...]}`. -/
structure HueApiDeviceResponse where
  errors : List HueApiErrorMessage
  data : List HueApiDeviceData
deriving DecidableEq, Repr

/-- serde decode of a `Vec<T>` field: a JSON array, every element
decoding. -/
def decodeList (dec : Json → Option α) : Json → Option (List α)
  | .arr xs => traverseOption dec xs
  | _ => none

/-- serde decode of `HueApiDeviceService` (object or positional array). -/
def decodeService : Json → Option HueApiDeviceService
  | .obj fields => do
      let r ← lookupField fields "rid" >>= decodeString
      let t ← lookupField fields "rtype" >>= decodeString
      pure ⟨r, t⟩
  | .arr [r, t] => do
      let rv ← decodeString r
      let tv ← decodeString t
      pure ⟨rv, tv⟩
  | _ => none

/-- serde decode of `HueApiDeviceProductData` (object or positional
array). -/
def decodeProductData : Json → Option HueApiDeviceProductData
  | .obj fields => do
      let m ← lookupField fields "model_id" >>= decodeString
      let p ← lookupField fields "product_name" >>= decodeString
      pure ⟨m, p⟩
  | .arr [m, p] => do
      let mv ← decodeString m
      let pv ← decodeString p
      pure ⟨mv, pv⟩
  | _ => none

/-- serde decode of `HueApiDeviceMetadata` (object or positional array). -/
def decodeMetadata : Json → Option HueApiDeviceMetadata
  | .obj fields => do
      let n ← lookupField fields "name" >>= decodeString
      pure ⟨n⟩
  | .arr [n] => do
      let nv ← decodeString n
      pure ⟨nv⟩
  | _ => none

/-- serde decode of `HueApiDeviceData` (object or positional array, fields
in declaration order). -/
def decodeDeviceData : Json → Option HueApiDeviceData
  | .obj fields => do
      let i ← lookupField fields "id" >>= decodeString
      let p ← lookupField fields "product_data" >>= decodeProductData
      let m ← lookupField fields "metadata" >>= decodeMetadata
      let s ← lookupField fields "services" >>= decodeList decodeService
      pure ⟨i, p, m, s⟩
  | .arr [i, p, m, s] => do
      let iv ← decodeString i
      let pv ← decodeProductData p
      let mv ← decodeMetadata m
      let sv ← decodeList decodeService s
      pure ⟨iv, pv, mv, sv⟩
  | _ => none

/-- serde decode of the whole `HueApiDeviceResponse` envelope. -/
def decodeDeviceResponse : Json → Option HueApiDeviceResponse
  | .obj fields => do
      let es ← lookupField fields "errors" >>= decodeList decodeErrorMessage
      let ds ← lookupField fields "data" >>= decodeList decodeDeviceData
      pure ⟨es, ds⟩
  | .arr [es, ds] => do
      let ev ← decodeList decodeErrorMessage es
      let dv ← decodeList decodeDeviceData ds
      pure ⟨ev, dv⟩
  | _ => none

/-- Message slot for the serde decode failure in
`parse_list_devices_response` (dynamic `serde_json` text abstracted). -/
def deviceListDecodeErrorMessage : String :=
  "serde_json decode error (device list envelope)"

/-- The per-entry mapping in `parse_list_devices_response`: build a
`HueDevice` from a data entry, taking `light_id` from the first service
whose `rtype` is `"light"`. -/
def deviceFromApiData (d : HueApiDeviceData) : HueDevice :=
  ⟨⟨d.id, d.metadata.name, d.product_data.product_name,
    (d.services.find? fun s => s.rtype == "light").map fun s => ⟨s.rid⟩⟩⟩

/-- `parse_list_devices_response`: serde-decode the v2 envelope (a decode
failure is an ordinary `HueError`, propagated with `?`); with a non-empty
`errors` list fail with "Response has errors"; otherwise map every data
entry to a `HueDevice`. -/
def parse_list_devices_response (json_response : Json) :
    Except HueError (List HueDevice) :=
  match decodeDeviceResponse json_response with
  | none => .error ⟨deviceListDecodeErrorMessage, some .decode⟩
  | some parsed =>
      match parsed.errors.isEmpty with
      | true => .ok (parsed.data.map deviceFromApiData)
      | false => .error ⟨"Response has errors", none⟩

/-- `list_devices`, given the JSON value the transport returned for
`GET /clip/v2/resource/device`. -/
def list_devices (response : Json) : Except HueError (List HueDevice) :=
  parse_list_devices_response response

/-- `LightOnOffState`: the `on` member of the light-control body. -/
structure LightOnOffState where
  «on» : Bool
deriving DecidableEq, Repr

/-- `LightDimmingState`: the `dimming` member of the light-control body.
`brightness` is an `f32` in the source, but every value placed there is
`f32::from(level.clamp(0, 100))` for a `u8` level, an exactly-representable
integer in `[0, 100]`, so it is modelled as a natural number. -/
structure LightDimmingState where
  brightness : Nat
deriving DecidableEq, Repr

/-- `LightControlRequestBody`: body of
`PUT /clip/v2/resource/light/{id}`. -/
structure LightControlRequestBody where
  «on» : LightOnOffState
  dimming : Option LightDimmingState
deriving DecidableEq, Repr

/-- serde serialization of `LightControlRequestBody`: fields in declaration
order; the `dimming` member is skipped entirely when `None`
(`skip_serializing_if = "Option::is_none"`). -/
def LightControlRequestBody.toJson (b : LightControlRequestBody) : Json :=
  .obj (("on", .obj [("on", .boolean b.«on».«on»)]) ::
    (match b.dimming with
     | none => []
     | some d => [("dimming", .obj [("brightness", .num (Int.ofNat d.brightness))])]))

/-- Rust `u8::clamp(lo, hi)`. -/
def rustClamp (x lo hi : Nat) : Nat := max lo (min x hi)

/-- `control_light`, embedded as the pair of (a) the serialized JSON body it
sends and (b) its result given that the transport call (`put_request`)
succeeded with JSON value `response`.  The source discards `put_request`'s
returned JSON value (`put_request(...)?; Ok(())`), so the result is `Ok(())`
whatever `response` contains.  `dimming_level` models the `Option<u8>`
argument. -/
def control_light («on» : Bool) (dimming_level : Option Nat) (_response : Json) :
    Json × Except HueError Unit :=
  let dimming := dimming_level.map fun level =>
    LightDimmingState.mk (rustClamp level 0 100)
  let body : LightControlRequestBody := ⟨⟨«on»⟩, dimming⟩
  (body.toJson, .ok ())

/-- Rust `str::contains` on already-lowercased haystack/needle: substring
containment, decided over the underlying character lists. -/
def strContains (s pat : String) : Bool :=
  (List.range (s.data.length + 1)).any fun i => pat.data.isPrefixOf (s.data.drop i)

/-- The exact-match pass of `find_light_by_id_or_name`: the first device
whose `light_id` equals the token verbatim. -/
def exactIdMatch (devices : List HueDevice) (id_or_name : String) : Option LightId :=
  devices.findSome? fun d =>
    d.info.light_id.bind fun lid =>
      if lid.val = id_or_name then some lid else none

/-- Rust `str::to_lowercase`, modelled as per-character lowercasing of the
underlying character list (Rust's Unicode special multi-character mappings
are outside the ASCII data this program compares). -/
def toLowercase (s : String) : String := ⟨s.data.map Char.toLower⟩

/-- The name-match pass of `find_light_by_id_or_name`: every device that has
a light service and whose lower-cased name contains the lower-cased token. -/
def nameMatchCandidates (devices : List HueDevice) (id_or_name : String) :
    List (DeviceInfo × LightId) :=
  let name_query := toLowercase id_or_name
  devices.filterMap fun d =>
    d.info.light_id.bind fun lid =>
      if strContains (toLowercase d.info.name) name_query then some (d.info, lid) else none

/-- The not-found failure message of `find_light_by_id_or_name`. -/
def notFoundMessage (id_or_name : String) : String :=
  s!"No light found with ID or name matching \x27{id_or_name}\x27"

/-- The `name (deviceId)` label used when enumerating ambiguous matches. -/
def deviceMatchLabel (info : DeviceInfo) : String :=
  let n := info.name
  let i := info.id
  s!"{n} ({i})"

/-- The ambiguity failure message of `find_light_by_id_or_name`, enumerating
every matching `name (deviceId)` pair. -/
def multipleMatchesMessage (id_or_name : String)
    (matched : List (DeviceInfo × LightId)) : String :=
  let joined := String.intercalate ", " (matched.map fun p => deviceMatchLabel p.1)
  s!"Multiple lights found matching \x27{id_or_name}\x27. Please be more specific or use the light ID directly: {joined}"

/-- `find_light_by_id_or_name`, given the already-fetched device list (the
source first calls `list_devices`; the resolver logic on the resulting
devices is embedded here): exact `light_id` match first, else
case-insensitive name-substring candidates with a zero/one/many split. -/
def find_light_by_id_or_name (devices : List HueDevice) (id_or_name : String) :
    Except HueError LightId :=
  match exactIdMatch devices id_or_name with
  | some lid => .ok lid
  | none =>
      match nameMatchCandidates devices id_or_name with
      | [] => .error ⟨notFoundMessage id_or_name, none⟩
      | [(_, lid)] => .ok lid
      | p :: q :: rest =>
          .error ⟨multipleMatchesMessage id_or_name (p :: q :: rest), none⟩

/-! ### Concrete bridge responses and device lists used as test vectors -/

/-- The "link button not pressed" error message (the source's own unit-test
vector). -/
def err101msg : HueApiErrorMessage := ⟨101, "/", "link button not pressed"⟩

/-- JSON form of `err101msg`. -/
def errJson101 : Json :=
  .obj [("type", .num 101), ("address", .str "/"),
        ("description", .str "link button not pressed")]

/-- Legacy-envelope response carrying one error (the source's unit-test
vector). -/
def legacyErrorResponse : Json := .arr [.obj [("error", errJson101)]]

/-- Field list of the successful create-key element (the source's unit-test
vector). -/
def successFields : List (String × Json) :=
  [("success", .obj [("username", .str "1234567890")])]

/-- Legacy-envelope response carrying one success (the source's unit-test
vector). -/
def legacySuccessResponse : Json := .arr [.obj successFields]

/-- A two-element create-key response, both elements successes. -/
def firstSuccessElement : Json := .obj [("success", .obj [("username", .str "a")])]

/-- Second element of the two-element create-key response. -/
def secondSuccessElement : Json := .obj [("success", .obj [("username", .str "b")])]

/-- v2 envelope carrying a non-empty error sequence alongside a `data`
payload. -/
def v2ErrorEnvelope : Json :=
  .obj [("errors", .arr [errJson101]), ("data", .arr [])]

/-- v2 device-list envelope with one device exposing a light service after a
non-light service (the source's unit-test vector, reduced to the decoded
fields). -/
def deviceListEnvelope : Json :=
  .obj [("errors", .arr []),
        ("data", .arr [
          .obj [("id", .str "D1"),
                ("product_data", .obj [("model_id", .str "M1"),
                                       ("product_name", .str "Space Light")]),
                ("metadata", .obj [("name", .str "Space light 1")]),
                ("services", .arr [
                  .obj [("rid", .str "Z1"), ("rtype", .str "zigbee_connectivity")],
                  .obj [("rid", .str "L1"), ("rtype", .str "light")]])]])]

/-- Decoded form of `deviceListEnvelope`. -/
def deviceListParsed : HueApiDeviceResponse :=
  ⟨[], [⟨"D1", ⟨"M1", "Space Light"⟩, ⟨"Space light 1"⟩,
        [⟨"Z1", "zigbee_connectivity"⟩, ⟨"L1", "light"⟩]⟩]⟩

/-- Device "Kitchen Left" with a light service. -/
def kitchenLeft : HueDevice := ⟨⟨"D1", "Kitchen Left", "Hue bulb", some ⟨"KL1"⟩⟩⟩

/-- Device "Kitchen Right" with a light service. -/
def kitchenRight : HueDevice := ⟨⟨"D2", "Kitchen Right", "Hue bulb", some ⟨"KR1"⟩⟩⟩

/-- A device whose name contains "l1" but whose light service ID is not
`L1`: a competing name match for the exact-ID token `L1`. -/
def decoyDevice : HueDevice := ⟨⟨"D3", "Panel l1 strip", "Hue strip", some ⟨"X9"⟩⟩⟩

/-- A device whose light service ID is the exact token `L1`. -/
def exactDevice : HueDevice := ⟨⟨"D4", "Office lamp", "Hue bulb", some ⟨"L1"⟩⟩⟩

/-! ## Helper lemmas -/

/-- A traversal aborts (`none`) whenever any element of the list maps to
`none`. -/
theorem traverseOption_eq_none_of_mem {α β : Type} (f : α → Option β) {l : List α} {x : α}
    (hx : x ∈ l) (hfx : f x = none) : traverseOption f l = none := by
  induction l with
  | nil => cases hx
  | cons a as ih =>
      cases hx with
      | head => simp [traverseOption, hfx]
      | tail _ hmem =>
          cases hfa : f a with
          | none => simp [traverseOption, hfa]
          | some y => simp [traverseOption, hfa, ih hmem]

/-- `find?` returns the head of the suffix starting at the first element
satisfying the predicate. -/
theorem find?_first {α : Type} {p : α → Bool} (pre : List α) (s : α) (post : List α)
    (hpre : ∀ x ∈ pre, p x = false) (hs : p s = true) :
    (pre ++ s :: post).find? p = some s := by
  induction pre with
  | nil => simp [List.find?_cons_of_pos, hs]
  | cons a as ih =>
      rw [List.cons_append, List.find?_cons_of_neg]
      · exact ih fun x hx => hpre x (List.mem_cons_of_mem a hx)
      · simp [hpre a (List.mem_cons_self a as)]

/-- On an element whose `error` payload (if any) decodes, one extraction
step equals looking up the `error` key and decoding it. -/
theorem extractError_eq_of_safe (x : Json)
    (hsafe : ∀ v, x.get "error" = some v → (decodeErrorMessage v).isSome = true) :
    extractError x = some ((x.get "error").bind decodeErrorMessage) := by
  cases x with
  | obj fields =>
      cases hkey : lookupField fields "error" with
      | none => simp [extractError, Json.get, hkey]
      | some v =>
          have hv := hsafe v (by simp [Json.get, hkey])
          cases hdec : decodeErrorMessage v with
          | none => rw [hdec] at hv; simp [Option.isSome] at hv
          | some e => simp [extractError, Json.get, hkey, hdec]
  | null => simp [extractError, Json.get]
  | boolean b => simp [extractError, Json.get]
  | num n => simp [extractError, Json.get]
  | str s => simp [extractError, Json.get]
  | arr l => simp [extractError, Json.get]

/-- On an array whose error payloads all decode, `parse_api_response_errors`
is the order-preserving filter-map over the `error` keys. -/
theorem parse_errors_arr (xs : List Json)
    (hsafe : ∀ x ∈ xs, ∀ v, x.get "error" = some v → (decodeErrorMessage v).isSome = true) :
    parse_api_response_errors (.arr xs) =
      some (xs.filterMap fun x => (x.get "error").bind decodeErrorMessage) := by
  induction xs with
  | nil => rfl
  | cons a as ih =>
      have ha := extractError_eq_of_safe a (hsafe a (List.mem_cons_self a as))
      have hps := ih fun x hx => hsafe x (List.mem_cons_of_mem a hx)
      simp only [parse_api_response_errors] at hps ⊢
      cases htr : traverseOption extractError as with
      | none => exact absurd hps (by simp [htr])
      | some ys =>
          rw [htr] at hps
          simp only [Option.map_some'] at hps
          injection hps with hps
          simp only [traverseOption, ha, htr, Option.map_some', List.filterMap_cons]
          cases hga : (a.get "error").bind decodeErrorMessage with
          | none => simp [List.filterMap_cons, hga, hps]
          | some e => simp [List.filterMap_cons, hga, hps]

/-- A successful exact-ID pass returns a light ID that equals the token and
belongs to some listed device. -/
theorem exactIdMatch_mem {devices : List HueDevice} {token : String} {lid : LightId}
    (h : exactIdMatch devices token = some lid) :
    lid.val = token ∧ ∃ d ∈ devices, d.info.light_id = some lid := by
  obtain ⟨d, hd, hfd⟩ := List.exists_of_findSome?_eq_some h
  cases hlid : d.info.light_id with
  | none => rw [hlid] at hfd; simp at hfd
  | some l =>
      rw [hlid] at hfd
      simp only [Option.bind] at hfd
      split at hfd
      case isTrue hv =>
          injection hfd with hfd
          subst hfd
          exact ⟨hv, d, hd, hlid⟩
      case isFalse hv => cases hfd

/-- The exact-ID pass fails when no device carries the token as its light
ID. -/
theorem exactIdMatch_eq_none {devices : List HueDevice} {token : String}
    (h : ∀ d ∈ devices, d.info.light_id ≠ some ⟨token⟩) :
    exactIdMatch devices token = none := by
  apply List.findSome?_eq_none_iff.mpr
  intro d hd
  cases hlid : d.info.light_id with
  | none => rfl
  | some l =>
      simp only [Option.bind]
      split
      case isTrue hv =>
          exfalso
          cases l with
          | mk v =>
              simp only at hv
              subst hv
              exact absurd hlid (h d hd)
      case isFalse hv => rfl

/-- Membership in the name-match candidate list is exactly: listed device,
non-none light service, and lower-cased name containing the lower-cased
token. -/
theorem mem_nameMatchCandidates {devices : List HueDevice} {token : String}
    (info : DeviceInfo) (lid : LightId) :
    (info, lid) ∈ nameMatchCandidates devices token ↔
      (⟨info⟩ : HueDevice) ∈ devices ∧ info.light_id = some lid ∧
        strContains (toLowercase info.name) (toLowercase token) = true := by
  unfold nameMatchCandidates
  rw [List.mem_filterMap]
  constructor
  · rintro ⟨d, hd, hfd⟩
    cases hlid : d.info.light_id with
    | none => rw [hlid] at hfd; simp at hfd
    | some l =>
        rw [hlid] at hfd
        simp only [Option.bind] at hfd
        split at hfd
        case isTrue hc =>
            injection hfd with hfd
            injection hfd with h1 h2
            subst h1
            subst h2
            refine ⟨?_, hlid, hc⟩
            cases d with
            | mk i => exact hd
        case isFalse hc => cases hfd
  · rintro ⟨hd, hlid, hc⟩
    refine ⟨⟨info⟩, hd, ?_⟩
    simp [hlid, hc]

/-! ## Claim theorems -/

/-- C1 (amended): `createApplicationKey` and `listDevices` return a failure
whenever the decoded envelope carries a non-empty error sequence; but
`setLightState` ignores the response envelope entirely and returns success
for every JSON response the transport delivers, failing only on
transport-level errors. -/
theorem claim_C1_error_envelope_handling :
    (∀ (resp : Json) (e : HueApiErrorMessage) (es : List HueApiErrorMessage),
      parse_api_response_errors resp = some (e :: es) →
      create_key resp = some (.error ⟨"Could not create key.", some (.api e)⟩)) ∧
    (∀ (resp : Json) (parsed : HueApiDeviceResponse),
      decodeDeviceResponse resp = some parsed → parsed.errors ≠ [] →
      list_devices resp = .error ⟨"Response has errors", none⟩) ∧
    (∀ («on» : Bool) (dim : Option Nat) (resp : Json),
      (control_light «on» dim resp).2 = .ok ()) := by
  refine ⟨fun resp e es herr => ?_, fun resp parsed hdec hne => ?_, fun _ _ _ => rfl⟩
  · simp [create_key, parse_create_key_response, herr]
  · rcases hE : parsed.errors with _ | ⟨a, l⟩
    · exact absurd hE hne
    · simp [list_devices, parse_list_devices_response, hdec, hE]

/-- C1 counterexample: a v2 envelope whose error sequence is non-empty, on
which the light-control operation nevertheless returns success, because
`control_light` discards the response body. -/
theorem claim_C1_counterexample :
    (decodeDeviceResponse v2ErrorEnvelope).map HueApiDeviceResponse.errors =
      some [err101msg] ∧
    (control_light true none v2ErrorEnvelope).2 = .ok () := ⟨rfl, rfl⟩

/-- C1 witness: the two envelope-checking operations at concrete
error-bearing responses. -/
theorem claim_C1_witness :
    create_key legacyErrorResponse =
      some (.error ⟨"Could not create key.", some (.api err101msg)⟩) ∧
    list_devices v2ErrorEnvelope = .error ⟨"Response has errors", none⟩ := by
  constructor
  · exact claim_C1_error_envelope_handling.1 legacyErrorResponse err101msg [] rfl
  · exact claim_C1_error_envelope_handling.2.1 v2ErrorEnvelope ⟨[err101msg], []⟩ rfl (by simp)

/-- C2: whenever some device's `light_id` equals the token verbatim, the
resolver returns that ID, for every device list — in particular regardless
of any device whose name would match the token as a substring. -/
theorem claim_C2_exact_match_precedence (devices : List HueDevice) (token : String)
    (h : ∃ d ∈ devices, d.info.light_id = some ⟨token⟩) :
    find_light_by_id_or_name devices token = .ok ⟨token⟩ := by
  cases hm : exactIdMatch devices token with
  | none =>
      exfalso
      obtain ⟨d, hd, hlid⟩ := h
      have hnone := List.findSome?_eq_none_iff.mp hm d hd
      rw [hlid] at hnone
      simp [Option.bind] at hnone
  | some lid =>
      obtain ⟨hv, -⟩ := exactIdMatch_mem hm
      cases lid with
      | mk v =>
          simp only at hv
          subst hv
          simp [find_light_by_id_or_name, hm]

/-- C2 witness: token `L1` is the exact light ID of one device while another
device's name contains `l1`; the exact match wins. -/
theorem claim_C2_witness :
    find_light_by_id_or_name [decoyDevice, exactDevice] "L1" = .ok ⟨"L1"⟩ :=
  claim_C2_exact_match_precedence [decoyDevice, exactDevice] "L1"
    ⟨exactDevice, by simp, rfl⟩

/-- C3: with no exact light-ID match, the candidate set is exactly the
devices with a non-none light service whose lower-cased name contains the
lower-cased token; zero candidates fail with a not-found message naming the
token, one candidate yields its light ID, and two or more fail with a
message enumerating every matching `name (deviceId)` pair. -/
theorem claim_C3_name_resolution (devices : List HueDevice) (token : String)
    (hnoexact : ∀ d ∈ devices, d.info.light_id ≠ some ⟨token⟩) :
    (∀ (info : DeviceInfo) (lid : LightId),
      (info, lid) ∈ nameMatchCandidates devices token ↔
        (⟨info⟩ : HueDevice) ∈ devices ∧ info.light_id = some lid ∧
          strContains (toLowercase info.name) (toLowercase token) = true) ∧
    (nameMatchCandidates devices token = [] →
      find_light_by_id_or_name devices token =
        .error ⟨notFoundMessage token, none⟩) ∧
    (∀ (info : DeviceInfo) (lid : LightId),
      nameMatchCandidates devices token = [(info, lid)] →
      find_light_by_id_or_name devices token = .ok lid) ∧
    (∀ (p q : DeviceInfo × LightId) (rest : List (DeviceInfo × LightId)),
      nameMatchCandidates devices token = p :: q :: rest →
      find_light_by_id_or_name devices token =
        .error ⟨multipleMatchesMessage token (p :: q :: rest), none⟩) := by
  have hm := exactIdMatch_eq_none hnoexact
  refine ⟨fun info lid => mem_nameMatchCandidates info lid,
    fun hc => ?_, fun info lid hc => ?_, fun p q rest hc => ?_⟩
  · simp [find_light_by_id_or_name, hm, hc]
  · simp [find_light_by_id_or_name, hm, hc]
  · simp [find_light_by_id_or_name, hm, hc]

/-- C3 witness: both kitchen devices match token `kitchen`; resolution fails
with the enumerating message. -/
theorem claim_C3_witness :
    find_light_by_id_or_name [kitchenLeft, kitchenRight] "kitchen" =
      .error ⟨multipleMatchesMessage "kitchen"
        [(kitchenLeft.info, ⟨"KL1"⟩), (kitchenRight.info, ⟨"KR1"⟩)], none⟩ :=
  (claim_C3_name_resolution [kitchenLeft, kitchenRight] "kitchen" (by decide)).2.2.2
    (kitchenLeft.info, ⟨"KL1"⟩) (kitchenRight.info, ⟨"KR1"⟩) [] (by rfl)

/-- C4: `parse_api_response_errors` yields, for an array input whose error
payloads all decode, exactly one `HueApiErrorMessage` per element that is an
object containing an `error` key, in input order, decoded from that key's
value, with all other elements contributing nothing; any non-array input
yields the empty sequence. -/
theorem claim_C4_parse_errors_shape :
    (∀ j : Json, j.isArray = false → parse_api_response_errors j = some []) ∧
    (∀ xs : List Json,
      (∀ x ∈ xs, ∀ v, x.get "error" = some v → (decodeErrorMessage v).isSome = true) →
      parse_api_response_errors (.arr xs) =
        some (xs.filterMap fun x => (x.get "error").bind decodeErrorMessage)) := by
  constructor
  · intro j h
    cases j <;> simp_all [parse_api_response_errors, Json.isArray]
  · exact parse_errors_arr

/-- C4 witness: the source's own unit-test vectors — one error-bearing
array, and a non-array value. -/
theorem claim_C4_witness :
    parse_api_response_errors legacyErrorResponse = some [err101msg] ∧
    parse_api_response_errors (.obj []) = some [] := by
  constructor
  · have h := claim_C4_parse_errors_shape.2 [.obj [("error", errJson101)]]
      (by
        intro x hx v hv
        rw [List.mem_singleton] at hx
        subst hx
        have hg : (Json.obj [("error", errJson101)]).get "error" = some errJson101 := rfl
        rw [hg] at hv
        injection hv with hv
        subst hv
        rfl)
    exact h.trans rfl
  · exact claim_C4_parse_errors_shape.1 (.obj []) rfl

/-- C5 (amended): a non-empty parsed error list fails with the first error
as cause; otherwise, for a non-empty array response whose first element is
an object (other shapes panic, see C9), a first element without a `success`
key yields the distinct malformed-success-envelope failure, and one with a
decodable `success` payload yields success carrying the embedded username —
elements after the first are ignored, and an undecodable `success` payload
yields a decode failure rather than success. -/
theorem claim_C5_create_key_parsing (j : Json) :
    (∀ (e : HueApiErrorMessage) (es : List HueApiErrorMessage),
      parse_api_response_errors j = some (e :: es) →
      parse_create_key_response j =
        some (.error ⟨"Could not create key.", some (.api e)⟩)) ∧
    (∀ (x : Json) (xs : List Json) (fields : List (String × Json)),
      parse_api_response_errors j = some [] → j = .arr (x :: xs) → x = .obj fields →
      ((lookupField fields "success" = none →
          parse_create_key_response j = some (.error ⟨createKeyMalformedMessage, none⟩)) ∧
       (∀ (v : Json) (r : HueApiCreateKeySuccessDetails),
          lookupField fields "success" = some v →
          decodeCreateKeySuccessDetails v = some r →
          parse_create_key_response j = some (.ok r)) ∧
       (∀ v : Json,
          lookupField fields "success" = some v →
          decodeCreateKeySuccessDetails v = none →
          parse_create_key_response j =
            some (.error ⟨createKeyDecodeErrorMessage, some .decode⟩)))) := by
  constructor
  · intro e es herr
    simp [parse_create_key_response, herr]
  · rintro x xs fields herr rfl rfl
    refine ⟨fun hnone => ?_, fun v r hv hr => ?_, fun v hv hr => ?_⟩
    · simp [parse_create_key_response, herr, Json.asObject, hnone]
    · simp [parse_create_key_response, herr, Json.asObject, hv, hr]
    · simp [parse_create_key_response, herr, Json.asObject, hv, hr]

/-- C5 counterexample: a two-element success response is not rejected — the
one-element requirement of the claim is not enforced; the first element's
username is returned and the second element is ignored. -/
theorem claim_C5_counterexample :
    parse_api_response_errors (.arr [firstSuccessElement, secondSuccessElement]) =
      some [] ∧
    parse_create_key_response (.arr [firstSuccessElement, secondSuccessElement]) =
      some (.ok ⟨"a"⟩) := ⟨rfl, rfl⟩

/-- C5 witness: the source's successful unit-test vector. -/
theorem claim_C5_witness :
    parse_create_key_response legacySuccessResponse = some (.ok ⟨"1234567890"⟩) := by
  have h := (claim_C5_create_key_parsing legacySuccessResponse).2
    (.obj successFields) [] successFields rfl rfl rfl
  exact h.2.1 (.obj [("username", .str "1234567890")]) ⟨"1234567890"⟩ rfl rfl

/-- C6: on a decoded v2 envelope, a non-empty `errors` sequence fails
(ignoring `data`); an empty one maps each data entry to one device whose
`light_id` is the `rid` of the first service in listed order whose `rtype`
is `"light"`, and is `none` when no service has that type. -/
theorem claim_C6_device_list_parsing (j : Json) (parsed : HueApiDeviceResponse)
    (hdec : decodeDeviceResponse j = some parsed) :
    (parsed.errors ≠ [] →
      parse_list_devices_response j = .error ⟨"Response has errors", none⟩) ∧
    (parsed.errors = [] →
      parse_list_devices_response j = .ok (parsed.data.map deviceFromApiData)) ∧
    (∀ d : HueApiDeviceData,
      ((∀ s ∈ d.services, s.rtype ≠ "light") →
        (deviceFromApiData d).info.light_id = none) ∧
      (∀ (pre : List HueApiDeviceService) (s : HueApiDeviceService)
          (post : List HueApiDeviceService),
        d.services = pre ++ s :: post → s.rtype = "light" →
        (∀ u ∈ pre, u.rtype ≠ "light") →
        (deviceFromApiData d).info.light_id = some ⟨s.rid⟩)) := by
  refine ⟨fun hne => ?_, fun he => ?_,
    fun d => ⟨fun hno => ?_, fun pre s post hsplit hs hpre => ?_⟩⟩
  · rcases hE : parsed.errors with _ | ⟨a, l⟩
    · exact absurd hE hne
    · simp [parse_list_devices_response, hdec, hE]
  · simp [parse_list_devices_response, hdec, he]
  · have hfind : d.services.find? (fun s => s.rtype == "light") = none :=
      List.find?_eq_none.mpr fun x hx => by simpa using hno x hx
    simp [deviceFromApiData, hfind]
  · have hfind : d.services.find? (fun s => s.rtype == "light") = some s := by
      rw [hsplit]
      exact find?_first pre s post
        (fun u hu => by simpa using hpre u hu) (by simpa using hs)
    simp [deviceFromApiData, hfind]

/-- C6 witness: the source's unit-test envelope, whose device exposes the
light service second in its service list. -/
theorem claim_C6_witness :
    parse_list_devices_response deviceListEnvelope =
      .ok [⟨⟨"D1", "Space light 1", "Space Light", some ⟨"L1"⟩⟩⟩] := by
  have h := (claim_C6_device_list_parsing deviceListEnvelope deviceListParsed rfl).2.1 rfl
  exact h.trans rfl

/-- C7: a requested brightness is clamped to `[0, 100]` before being placed
as the `dimming.brightness` member of the outgoing JSON body (a request of
150 is sent as 100), and with no requested brightness the serialized body
has no `dimming` key at all. -/
theorem claim_C7_brightness_clamping :
    (∀ («on» : Bool) (level : Nat) (resp : Json),
      ((control_light «on» (some level) resp).1).get "dimming" =
        some (.obj [("brightness", .num (Int.ofNat (rustClamp level 0 100)))])) ∧
    (∀ level : Nat, rustClamp level 0 100 ≤ 100) ∧
    (∀ («on» : Bool) (resp : Json),
      ((control_light «on» (some 150) resp).1).get "dimming" =
        some (.obj [("brightness", .num 100)])) ∧
    (∀ («on» : Bool) (resp : Json),
      ((control_light «on» none resp).1).get "dimming" = none) := by
  refine ⟨fun _ level resp => rfl, fun level => ?_, fun _ resp => rfl,
    fun _ resp => rfl⟩
  simp [rustClamp]

/-- C8: whenever the resolver succeeds, the returned light ID is the light
service ID of one of the listed devices — never synthesized from the token
or anywhere else. -/
theorem claim_C8_resolver_never_synthesizes (devices : List HueDevice)
    (token : String) (lid : LightId)
    (h : find_light_by_id_or_name devices token = .ok lid) :
    ∃ d ∈ devices, d.info.light_id = some lid := by
  unfold find_light_by_id_or_name at h
  cases hm : exactIdMatch devices token with
  | some l =>
      rw [hm] at h
      injection h with h
      obtain ⟨-, hd⟩ := exactIdMatch_mem hm
      exact h ▸ hd
  | none =>
      rw [hm] at h
      cases hc : nameMatchCandidates devices token with
      | nil => rw [hc] at h; cases h
      | cons p rest =>
          cases rest with
          | nil =>
              rw [hc] at h
              cases p with
              | mk info l =>
                  injection h with h
                  have hmem : (info, l) ∈ nameMatchCandidates devices token := by
                    rw [hc]
                    exact List.mem_singleton.mpr rfl
                  obtain ⟨hd, hlid, -⟩ := (mem_nameMatchCandidates info l).mp hmem
                  exact ⟨⟨info⟩, hd, by rw [hlid, h]⟩
          | cons q rest2 => rw [hc] at h; cases h

/-- C8 witness: resolving `left` over the kitchen devices returns `KL1`,
which is indeed a listed device's light service ID. -/
theorem claim_C8_witness :
    ∃ d ∈ [kitchenLeft, kitchenRight], d.info.light_id = some ⟨"KL1"⟩ :=
  claim_C8_resolver_never_synthesizes [kitchenLeft, kitchenRight] "left" ⟨"KL1"⟩ (by rfl)

/-- C9: `parse_create_key_response` panics (modelled as `none`) whenever the
parsed error list is empty and the response is not an array
(`unimplemented!()`), or is an empty array (`get(0).unwrap()`), or is an
array whose first element is not an object (`as_object().unwrap()`) — it
never returns an error result on those shapes. -/
theorem claim_C9_create_key_panics (j : Json)
    (herr : parse_api_response_errors j = some [])
    (hshape : j.isArray = false ∨ j = .arr [] ∨
      ∃ x xs, j = .arr (x :: xs) ∧ x.asObject = none) :
    parse_create_key_response j = none := by
  rcases hshape with h | h | ⟨x, xs, rfl, hobj⟩
  · cases j with
    | arr l => simp [Json.isArray] at h
    | null => simp [parse_create_key_response, herr]
    | boolean b => simp [parse_create_key_response, herr]
    | num n => simp [parse_create_key_response, herr]
    | str s => simp [parse_create_key_response, herr]
    | obj fields => simp [parse_create_key_response, herr]
  · subst h
    simp [parse_create_key_response, herr]
  · simp [parse_create_key_response, herr, hobj]

/-- C9 witness: a non-array, error-free response panics. -/
theorem claim_C9_witness :
    parse_create_key_response (.str "unexpected") = none :=
  claim_C9_create_key_panics (.str "unexpected") rfl (Or.inl rfl)

/-- C10: if any element of an array response is an object whose `error`
value fails to decode to the expected (integer `type`, string `address`,
string `description`) shape, the unchecked `unwrap()` panics (modelled as
`none`), aborting error extraction for the whole response. -/
theorem claim_C10_error_decode_panics (xs : List Json) (x : Json)
    (fields : List (String × Json)) (v : Json)
    (hx : x ∈ xs) (hobj : x = .obj fields)
    (hkey : lookupField fields "error" = some v)
    (hdec : decodeErrorMessage v = none) :
    parse_api_response_errors (.arr xs) = none := by
  have hex : extractError x = none := by
    subst hobj
    simp [extractError, hkey, hdec]
  simp [parse_api_response_errors,
    traverseOption_eq_none_of_mem extractError hx hex]

/-- C10 witness: a response whose single element carries an `error` key with
a string payload panics the extraction. -/
theorem claim_C10_witness :
    parse_api_response_errors (.arr [.obj [("error", .str "bad")]]) = none :=
  claim_C10_error_decode_panics [.obj [("error", .str "bad")]]
    (.obj [("error", .str "bad")]) [("error", .str "bad")] (.str "bad")
    (List.mem_singleton.mpr rfl) rfl rfl rfl

end HueLab
